import Mathlib

/-!
Verification of the Neo Recovery attendance backend (src/api/index.py).

The spreadsheet datastore is embedded shallowly: a sheet is a list of rows,
a row a list of cell strings (what the Sheets API `values().get` returns).
`SheetDB` carries the contents of the three sheets the claims touch, plus a
flag recording whether the read of the Employees sheet succeeds (the code
catches a failed read in `get_employees` and turns it into an error payload).
Reads of the Attendance sheet are modelled as succeeding; the
AttendanceSessions sheet is `Option`al, `none` standing for the
sheet-missing/unreadable case that the code's bare `except` turns into lazy
creation.  The current clock (IST date and time strings the Python code
obtains from `datetime.now`) is passed in as explicit arguments.
-/

namespace NeoAttendance

abbrev Row := List String
abbrev Sheet := List Row

/-- The spreadsheet-backed state visible to the API functions. -/
structure SheetDB where
  /-- Whether the read of `Employees!A:C` succeeds (false = upstream failure). -/
  employeesOk : Bool
  /-- Contents of the Employees sheet, header row included. -/
  employees : Sheet
  /-- Contents of the Attendance sheet, header row included. -/
  attendance : Sheet
  /-- Contents of the AttendanceSessions sheet; `none` when the sheet is absent. -/
  sessions : Option Sheet
deriving Repr, DecidableEq

/-- An employee as returned by `get_employees`: `{"id": int(...), "name": ...}`. -/
structure Employee where
  id : Int
  name : String
deriving Repr, DecidableEq

/-! Python's string operations, written over the character list of a string
so that they evaluate by definitional reduction (Lean's own position-based
`String.toUpper`, `String.trim`, ... do not). -/

/-- `str.upper()` (ASCII case map, which is all the sheet cells use). -/
def pyUpper (s : String) : String := ⟨s.data.map Char.toUpper⟩

/-- `str.isdigit()`: nonempty and all digits. -/
def pyIsDigit (s : String) : Bool := !s.data.isEmpty && s.data.all Char.isDigit

/-- The value of a digit string. -/
def digitsVal (l : List Char) : Nat := l.foldl (fun a c => a * 10 + (c.toNat - 48)) 0

/-- `int(s)` for an unsigned cell: `none` when `int` raises `ValueError`. -/
def pyToNat (s : String) : Option Nat :=
  if s.data ≠ [] ∧ s.data.all Char.isDigit then some (digitsVal s.data) else none

/-- `int(s)` for a possibly negative cell: an optional minus sign then
digits. -/
def pyToInt (s : String) : Option Int :=
  match s.data with
  | '-' :: rest =>
    if rest ≠ [] ∧ rest.all Char.isDigit then some (-(digitsVal rest : Int)) else none
  | _ => (pyToNat s).map Int.ofNat

/-- `str.strip()`: drop leading and trailing whitespace. -/
def pyTrim (s : String) : String :=
  ⟨((s.data.dropWhile Char.isWhitespace).reverse.dropWhile Char.isWhitespace).reverse⟩

/-- `s.startswith(p)`. -/
def pyStartsWith (s p : String) : Bool := p.data.isPrefixOf s.data

/-- `chars.split(sep)` (Python `str.split` with an explicit separator). -/
def splitOnChar (sep : Char) : List Char → List (List Char)
  | [] => [[]]
  | c :: rest =>
    let r := splitOnChar sep rest
    if c == sep then [] :: r
    else
      match r with
      | h :: t => (c :: h) :: t
      | [] => [[c]]

/-- `s.split('-')`. -/
def pySplitDash (s : String) : List String := (splitOnChar '-' s.data).map String.mk

/-- `header.index(key)` of Python, as an option instead of an exception. -/
def headerIndex (header : List String) (key : String) : Option Nat :=
  header.findIdx? (fun c => c == key)

/-- The row loop of `get_employees`: keep rows whose `active` cell upper-cases
to `"TRUE"` and that are long enough to hold the id and name columns; a
non-integer id cell raises in Python (`int(row[id_idx])`), which the outer
handler turns into the error payload, so the whole scan fails. -/
def employeesFromRows (data : List Row) (idI nameI actI : Nat) :
    Except String (List Employee) :=
  match data with
  | [] => .ok []
  | row :: rest =>
    if actI < row.length ∧ pyUpper (row.getD actI "") = "TRUE" then
      if idI < row.length ∧ nameI < row.length then
        match pyToInt (row.getD idI "") with
        | some n =>
          match employeesFromRows rest idI nameI actI with
          | .ok es => .ok (⟨n, row.getD nameI ""⟩ :: es)
          | .error e => .error e
        | none => .error "Failed to retrieve employee data from sheet."
      else employeesFromRows rest idI nameI actI
    else employeesFromRows rest idI nameI actI

/-- `get_employees(service, spreadsheet_id)`: fetch active employees from the
Employees sheet, or an error payload when the read (or a header/int lookup)
fails. -/
def get_employees (db : SheetDB) : Except String (List Employee) :=
  if !db.employeesOk then .error "Failed to retrieve employee data from sheet."
  else if db.employees.length < 2 then .ok []
  else
    match db.employees with
    | [] => .ok []
    | header :: data =>
      match headerIndex header "id", headerIndex header "name",
          headerIndex header "active" with
      | some idI, some nameI, some actI => employeesFromRows data idI nameI actI
      | _, _, _ => .error "Failed to retrieve employee data from sheet."

/-- `get_employee_by_id`: `None` when `get_employees` failed, else a linear
search by id. -/
def get_employee_by_id (db : SheetDB) (employee_id : Int) : Option Employee :=
  match get_employees db with
  | .error _ => none
  | .ok emps => emps.find? (fun e => e.id == employee_id)

/-! ### Geofence validation (`validate_location`)

Python float arithmetic is modelled over `ℝ`; `round` is the
integer rounding of the real distance (Python's `round` agrees except on
exact halves, where it rounds to even, a case no claim exercises). -/

/-- An entry of `allowed_locations`: latitude, longitude, radius in meters. -/
structure OfficeLocation where
  lat : ℝ
  lon : ℝ
  radius : ℝ

/-- The static office list of `validate_location` (same as the frontend). -/
noncomputable def allowed_locations : List OfficeLocation :=
  [⟨28.678139, 77.106889, 50⟩]

open Classical in
/-- Python's `math.atan2`. -/
noncomputable def atan2 (y x : ℝ) : ℝ :=
  if 0 < x then Real.arctan (y / x)
  else if x < 0 ∧ 0 ≤ y then Real.arctan (y / x) + Real.pi
  else if x < 0 ∧ y < 0 then Real.arctan (y / x) - Real.pi
  else if x = 0 ∧ 0 < y then Real.pi / 2
  else if x = 0 ∧ y < 0 then -(Real.pi / 2)
  else 0

/-- The nested `haversine_distance(lat1, lon1, lat2, lon2)` of
`validate_location`: central angle via the standard haversine formula,
distance = Earth radius (6,371,000 m) times the angle. -/
noncomputable def haversine_distance (lat1 lon1 lat2 lon2 : ℝ) : ℝ :=
  let R : ℝ := 6371000
  let d_lat := (lat2 - lat1) * Real.pi / 180
  let d_lon := (lon2 - lon1) * Real.pi / 180
  let a := Real.sin (d_lat / 2) * Real.sin (d_lat / 2) +
    Real.cos (lat1 * Real.pi / 180) * Real.cos (lat2 * Real.pi / 180) *
      (Real.sin (d_lon / 2) * Real.sin (d_lon / 2))
  let c := 2 * atan2 (Real.sqrt a) (Real.sqrt (1 - a))
  R * c

/-- Result of `validate_location`: `{"ok": True, "distance": ...}` or
`{"ok": False, "error": ...}`. -/
inductive LocResult where
  | pass (distance : ℤ)
  | fail (msg : String)
deriving Repr, DecidableEq

/-- The failure message of `validate_location`, around the rounded distance. -/
def outsideMsg (n : ℤ) : String :=
  "Location is outside allowed office area. You are " ++ toString n ++
    "m away from the nearest office location. Please ensure you are at the office building and try again."

open Classical in
/-- The first loop of `validate_location`: return the distance to the first
office within whose radius the point lies. -/
noncomputable def firstWithinRadius (lat lon : ℝ) : List OfficeLocation → Option ℝ
  | [] => none
  | l :: rest =>
    if haversine_distance lat lon l.lat l.lon ≤ l.radius then
      some (haversine_distance lat lon l.lat l.lon)
    else firstWithinRadius lat lon rest

/-- The second loop of `validate_location`: the minimum distance to any office
(`min_distance` starts at infinity, so an empty office list leaves it there:
modelled as `none`). -/
noncomputable def minDistance (lat lon : ℝ) (ls : List OfficeLocation) : Option ℝ :=
  match ls.map (fun l => haversine_distance lat lon l.lat l.lon) with
  | [] => none
  | d :: ds => some (ds.foldl min d)

open Classical in
/-- `validate_location(latitude, longitude)`: pass within any office radius;
otherwise pass within 200 m of the nearest office reporting the distance;
otherwise fail naming the rounded distance.  (An empty office list would leave
`min_distance` infinite and `round(inf)` raises, caught as the generic GPS
error — unreachable with the fixed singleton list.) -/
noncomputable def validate_location (lat lon : ℝ) : LocResult :=
  match firstWithinRadius lat lon allowed_locations with
  | some d => .pass (round d)
  | none =>
    match minDistance lat lon allowed_locations with
    | some m => if m ≤ 200 then .pass (round m) else .fail (outsideMsg (round m))
    | none => .fail "Unable to verify your location. Please check your GPS settings and try again."

/-! ### Device sessions -/

/-- Result of `check_device_session`: `ok` is the `"ok"` field (the code's
scan cannot raise, so it is always true — the `not ok` branch of
`mark_attendance` is dead), `found` the `"exists"` field. -/
structure DeviceCheck where
  ok : Bool
  found : Bool
deriving Repr, DecidableEq

/-- `create_sessions_sheet`: create AttendanceSessions with its header row. -/
def create_sessions_sheet (db : SheetDB) : SheetDB :=
  { db with sessions := some [["device_id", "date", "employee_id", "timestamp"]] }

/-- `check_device_session(service, id, device_id, date)`: does the device
already have a session row for this date?  A missing sheet is lazily created
and counts as no session. -/
def check_device_session (db : SheetDB) (device_id date : String) :
    DeviceCheck × SheetDB :=
  match db.sessions with
  | none => (⟨true, false⟩, create_sessions_sheet db)
  | some rows =>
    if rows.length < 2 then (⟨true, false⟩, db)
    else
      (⟨true, rows.tail.any (fun r =>
        decide (2 ≤ r.length) && (r.getD 0 "" == device_id) && (r.getD 1 "" == date))⟩, db)

/-- Result of `check_device_session_for_employee`: the session row bound to
(device, date) with its employee id; `noSession` when none (or the sheet was
missing — lazily created); `checkFailed` when `int(row[2])` raises and the
outer handler returns `{"ok": False, ...}`. -/
inductive SessionEmp where
  | checkFailed (msg : String)
  | noSession
  | bound (employee_id : Int)
deriving Repr, DecidableEq

/-- `check_device_session_for_employee(service, id, device_id, date,
employee_id)` (the trailing employee argument is unused by the scan). -/
def check_device_session_for_employee (db : SheetDB) (device_id date : String) :
    SessionEmp × SheetDB :=
  match db.sessions with
  | none => (.noSession, create_sessions_sheet db)
  | some rows =>
    if rows.length < 2 then (.noSession, db)
    else
      match rows.tail.find? (fun r =>
          decide (3 ≤ r.length) && (r.getD 0 "" == device_id) && (r.getD 1 "" == date)) with
      | some r =>
        match pyToInt (r.getD 2 "") with
        | some e => (.bound e, db)
        | none => (.checkFailed "Failed to check device session.", db)
      | none => (.noSession, db)

/-- `save_device_session`: append the (device, date, employee, timestamp) row,
creating the sheet first when absent. -/
def save_device_session (db : SheetDB) (device_id date : String)
    (employee_id : Int) (timestamp : String) : SheetDB :=
  let new_row : Row := [device_id, date, toString employee_id, timestamp]
  match db.sessions with
  | none =>
    let db1 := create_sessions_sheet db
    { db1 with sessions := some (db1.sessions.getD [] ++ [new_row]) }
  | some rows => { db with sessions := some (rows ++ [new_row]) }

/-! ### Marking attendance and logout -/

/-- The response dictionaries of the marking endpoints. -/
inductive ApiResult where
  /-- `{"ok": True, "marked_at": ..., "date": ...}` -/
  | marked (marked_at date : String)
  /-- `{"ok": True, "message": ...}` -/
  | already (message : String)
  /-- `{"ok": True, "logged_out_at": ..., "date": ...}` -/
  | loggedOut (logged_out_at date : String)
  /-- `{"ok": True, "employee": {...}}` of `add_employee` -/
  | added (id : Nat) (name : String)
  /-- `{"ok": False, "error": ...}` -/
  | err (error : String)
deriving Repr, DecidableEq

open Classical in
/-- Step 2 of both marking functions: when both coordinates are given, the
error of a failed `validate_location`, else `none`. -/
noncomputable def locationGate (latitude longitude : Option ℝ) : Option String :=
  match latitude, longitude with
  | some la, some lo =>
    match validate_location la lo with
    | .pass _ => none
    | .fail m => some m
  | _, _ => none

/-- The duplicate scan of `mark_attendance` step 5 and the row scan of
`mark_logout` step 4: a row of `Attendance!A:B`/`A:F` for (date, employee). -/
def rowMatches (date_iso : String) (employee_id : Int) (row : Row) : Bool :=
  decide (2 ≤ row.length) && (row.getD 0 "" == date_iso) &&
    (row.getD 1 "" == toString employee_id)

/-- `mark_attendance(service, id, employee_id, latitude, longitude,
device_id)`.  `today`/`timeNow`/`tsNow` are the IST date, `HH:MM` time and
session timestamp the code reads from the clock. -/
noncomputable def mark_attendance (db : SheetDB) (today timeNow tsNow : String)
    (employee_id : Int) (latitude longitude : Option ℝ)
    (device_id : Option String) : ApiResult × SheetDB :=
  -- 1. validate employee
  match get_employee_by_id db employee_id with
  | none => (.err "Employee not found or inactive", db)
  | some employee =>
    -- 2. validate location if provided
    match locationGate latitude longitude with
    | some m => (.err m, db)
    | none =>
      -- 3. check device session if device_id provided
      let step3 : Option ApiResult × SheetDB :=
        match device_id with
        | none => (none, db)
        | some d =>
          let chk := check_device_session db d today
          if !chk.1.ok then (some (.err "Failed to check device session"), chk.2)
          else if chk.1.found then
            (some (.err "This device has already marked attendance today"), chk.2)
          else (none, chk.2)
      match step3 with
      | (some r, db1) => (r, db1)
      | (none, db1) =>
        -- 5. check for duplicates (employee-based)
        if (db1.attendance.drop 1).any (rowMatches today employee_id) then
          (.already "already marked", db1)
        else
          -- 6. append the new attendance record
          let new_row : Row := [today, toString employee_id, employee.name, timeNow, "reception"]
          let db2 := { db1 with attendance := db1.attendance ++ [new_row] }
          -- 7. save device session if device_id provided
          match device_id with
          | some d => (.marked timeNow today, save_device_session db2 d today employee_id tsNow)
          | none => (.marked timeNow today, db2)

/-- The `while len(attendance_row) < 6: append('')` padding of `mark_logout`. -/
def padTo6 (r : Row) : Row := r ++ List.replicate (6 - r.length) ""

/-- Step 7 of `mark_logout`: write the logout time into column F of the
matched row (list index `listIdx`) and update that row in place. -/
def writeLogout (db : SheetDB) (listIdx : Nat) (attendance_row : Row)
    (timeNow today : String) : ApiResult × SheetDB :=
  (.loggedOut timeNow today,
    { db with attendance := db.attendance.set listIdx ((padTo6 attendance_row).set 5 timeNow) })

/-- The name `mark_logout` reports for the employee a session is bound to:
the employee lookup's name when found, else `employee #<id>`. -/
def loggedName (db : SheetDB) (e : Int) : String :=
  match get_employee_by_id db e with
  | some emp2 => emp2.name
  | none => "employee #" ++ toString e

/-- `mark_logout(service, id, employee_id, latitude, longitude, device_id)`. -/
noncomputable def mark_logout (db : SheetDB) (today timeNow : String)
    (employee_id : Int) (latitude longitude : Option ℝ)
    (device_id : Option String) : ApiResult × SheetDB :=
  -- 1. validate employee
  match get_employee_by_id db employee_id with
  | none => (.err "Employee not found or inactive. Please contact HR to verify your employee status.", db)
  | some _employee =>
    -- 2. validate location if provided
    match locationGate latitude longitude with
    | some m => (.err m, db)
    | none =>
      -- 4. find today's attendance row (sheet row j+2, list index j+1)
      match (db.attendance.drop 1).findIdx? (rowMatches today employee_id) with
      | none => (.err "You haven't logged in today. Please mark your attendance first before logging out.", db)
      | some j =>
        let attendance_row := db.attendance.getD (j + 1) []
        -- 5. check if already logged out (column F nonempty)
        if 6 ≤ attendance_row.length ∧ attendance_row.getD 5 "" ≠ "" then
          (.err "You have already logged out today. No action needed.", db)
        else
          -- 6. device session check: same user who logged in must log out
          match device_id with
          | none => writeLogout db (j + 1) attendance_row timeNow today
          | some d =>
            let chk := check_device_session_for_employee db d today
            match chk.1 with
            | .checkFailed _ =>
              -- session-check failure is logged but does not block logout
              writeLogout chk.2 (j + 1) attendance_row timeNow today
            | .noSession => writeLogout chk.2 (j + 1) attendance_row timeNow today
            | .bound e =>
              if e ≠ employee_id then
                (.err ("You are logged in as " ++ loggedName chk.2 e ++
                  " today and can only logout for " ++ loggedName chk.2 e ++ " today!"), chk.2)
              else writeLogout chk.2 (j + 1) attendance_row timeNow today

/-! ### Adding employees -/

/-- The id scan of `add_employee`: numeric (all-digit, per `str.isdigit`)
first-column cells of `Employees!A:A`, header skipped. -/
def employeeIds (db : SheetDB) : List Nat :=
  (db.employees.drop 1).filterMap (fun row =>
    match row with
    | [] => none
    | c :: _ => if pyIsDigit c then pyToNat c else none)

/-- `max(ids)` over a list of naturals (0 on the empty list, which
`add_employee` never consults). -/
def listMax (l : List Nat) : Nat := l.foldl Nat.max 0

/-- `add_employee(service, id, name)`: reject blank names, assign
`max(ids) + 1` (or 1), append `[next_id, name.strip(), True]`.  A failed read
of the Employees sheet raises and is reported as the generic failure. -/
def add_employee (db : SheetDB) (name : String) : ApiResult × SheetDB :=
  if pyTrim name = "" then (.err "Employee name cannot be empty", db)
  else if !db.employeesOk then (.err "Failed to add employee.", db)
  else
    let ids := employeeIds db
    let next_id := if ids.isEmpty then 1 else listMax ids + 1
    (.added next_id (pyTrim name),
      { db with employees := db.employees ++ [[toString next_id, pyTrim name, "TRUE"]] })

/-! ### The month matrix (`get_attendance_matrix`) -/

/-- One row of the month matrix: `{"id": ..., "name": ..., "1": ..., ...}`;
`cells` lists the day-of-month keys `"1"`..`"days"` in order with their
values. -/
structure MatrixRow where
  id : Int
  name : String
  cells : List (String × String)
deriving Repr, DecidableEq

/-- The `emp_map` dict comprehension `{emp['id']: emp['name'] for emp in
employees}`: one step of insertion (an existing key keeps its position and
takes the new name). -/
def upsertEmp (acc : List Employee) (e : Employee) : List Employee :=
  if acc.any (fun x => x.id == e.id) then
    acc.map (fun x => if x.id == e.id then { x with name := e.name } else x)
  else acc ++ [e]

/-- `emp_map` as an insertion-ordered association list. -/
def empMap (l : List Employee) : List Employee := l.foldl upsertEmp []

/-- `int(date_str.split('-')[2])`: the day of month of an ISO date cell, or
`none` when the index or int conversion raises. -/
def dayOfDate (date_str : String) : Option Nat :=
  match (pySplitDash date_str).get? 2 with
  | none => none
  | some s => pyToNat s

/-- Whether a row of `Attendance!A:F` enters `attendance_data` for `month`:
`len(row) >= 4 and row[0] and row[0].startswith(month)`. -/
def monthRowQualifies (month : String) (row : Row) : Bool :=
  decide (4 ≤ row.length) && (row.getD 0 "" != "") && (pyStartsWith (row.getD 0 "") month)

/-- The `logout_time` read of the matrix loop: column F when present. -/
def logoutCell (row : Row) : String := if 5 < row.length then row.getD 5 "" else ""

/-- The `time_display` of the matrix loop: `"HH:MM - HH:MM"` when a
(non-blank) logout exists, else the arrival alone. -/
def timeDisplay (row : Row) : String :=
  let arrival_time := row.getD 3 ""
  let logout_time := logoutCell row
  if logout_time ≠ "" ∧ pyTrim logout_time ≠ "" then arrival_time ++ " - " ++ logout_time
  else arrival_time

/-- The `attendance_data` dict of `get_attendance_matrix` as the list of
`(f"{emp_id}|{day}", time_display)` insertions in sheet order; a malformed
date cell raises (`int(...)`/`IndexError`), failing the whole function. -/
def monthEntries (month : String) : List Row → Except String (List (String × String))
  | [] => .ok []
  | row :: rest =>
    if monthRowQualifies month row then
      match dayOfDate (row.getD 0 "") with
      | none => .error "Failed to get attendance matrix."
      | some day =>
        match monthEntries month rest with
        | .ok es => .ok ((row.getD 1 "" ++ "|" ++ toString day, timeDisplay row) :: es)
        | .error e => .error e
    else monthEntries month rest

/-- Python dict lookup over an insertion list: the last value written for the
key, if any. -/
def lookupLast (entries : List (String × String)) (key : String) : Option String :=
  match entries with
  | [] => none
  | (k, v) :: rest =>
    match lookupLast rest key with
    | some w => some w
    | none => if k == key then some v else none

/-- `year, month_num = map(int, month.split('-'))`: exactly two dash-separated
integer fields. -/
def parseMonth (month : String) : Option (Int × Int) :=
  match pySplitDash month with
  | [y, m] =>
    match pyToInt y, pyToInt m with
    | some yi, some mi => some (yi, mi)
    | _, _ => none
  | _ => none

/-- `calendar.isleap`. -/
def isleap (y : Int) : Bool := (y % 4 == 0 && y % 100 != 0) || (y % 400 == 0)

/-- `calendar.monthrange(year, month)[1]`: days in the month, `none` when the
month is outside 1..12 (Python raises `IllegalMonthError`). -/
def daysInMonth (y m : Int) : Option Nat :=
  if m < 1 ∨ 12 < m then none
  else if m = 2 then some (if isleap y then 29 else 28)
  else if m = 4 ∨ m = 6 ∨ m = 9 ∨ m = 11 then some 30
  else some 31

/-- `get_attendance_matrix(service, id, month)`: days-in-month and one matrix
row per `emp_map` entry, each day keyed `"1"`..`"days"` with the dict value or
`""`. -/
def get_attendance_matrix (db : SheetDB) (month : String) :
    Except String (Nat × List MatrixRow) :=
  match get_employees db with
  | .error e => .error e
  | .ok employees =>
    match monthEntries month (db.attendance.drop 1) with
    | .error e => .error e
    | .ok entries =>
      match parseMonth month with
      | none => .error "Failed to get attendance matrix."
      | some ym =>
        match daysInMonth ym.1 ym.2 with
        | none => .error "Failed to get attendance matrix."
        | some days =>
          .ok (days, (empMap employees).map (fun e =>
            { id := e.id, name := e.name,
              cells := (List.range' 1 days).map (fun d =>
                (toString d,
                  (lookupLast entries (toString e.id ++ "|" ++ toString d)).getD "")) }))

/-! ### Shared helper lemmas and witness data -/

/-- A concrete database used to witness the theorems: three employees (Bob
inactive), Alice logged in on 2024-01-15 (not yet out), Carol logged in and
out, one session binding device `dev1` to employee 1, and one malformed
session row for device `devX`. -/
def dbW : SheetDB :=
  { employeesOk := true,
    employees := [["id", "name", "active"], ["1", "Alice", "TRUE"],
      ["2", "Bob", "FALSE"], ["3", "Carol", "TRUE"]],
    attendance := [["date", "employee_id", "name", "arrival_time", "location", "logout_time"],
      ["2024-01-15", "1", "Alice", "09:00", "reception"],
      ["2024-01-15", "3", "Carol", "09:10", "reception", "17:30"]],
    sessions := some [["device_id", "date", "employee_id", "timestamp"],
      ["dev1", "2024-01-15", "1", "2024-01-15 09:00:00"],
      ["dev2", "2024-01-15", "3", "2024-01-15 09:10:00"],
      ["devX", "2024-01-15", "zzz", "2024-01-15 09:05:00"]] }

/-- Reference reading of the `attendance_data` dict build: whether a row of
the Attendance sheet qualifies for `month` and computes dict key `key`. -/
def rowHasKey (month key : String) (row : Row) : Bool :=
  monthRowQualifies month row &&
    match dayOfDate (row.getD 0 "") with
    | some day => row.getD 1 "" ++ "|" ++ toString day == key
    | none => false

/-- The attendance record a dict key ends up showing: the last qualifying
row with that key, since later sheet rows overwrite earlier dict entries. -/
def lastRecord (att : List Row) (month key : String) : Option Row :=
  (att.filter (rowHasKey month key)).getLast?

/-- The month matrix of the witness database for 2024-01. -/
def matrixW : Nat × List MatrixRow :=
  match get_attendance_matrix dbW "2024-01" with
  | .ok p => p
  | .error _ => (0, [])

lemma get_employees_of_read_failure (db : SheetDB) (h : db.employeesOk = false) :
    get_employees db = .error "Failed to retrieve employee data from sheet." := by
  simp [get_employees, h]

lemma get_employee_by_id_of_read_failure (db : SheetDB) (h : db.employeesOk = false)
    (eid : Int) : get_employee_by_id db eid = none := by
  simp [get_employee_by_id, get_employees_of_read_failure db h]

/-- `check_device_session` touches at most the sessions sheet. -/
lemma check_device_session_frame (db : SheetDB) (d t : String) :
    ((check_device_session db d t).2).employeesOk = db.employeesOk ∧
    ((check_device_session db d t).2).employees = db.employees ∧
    ((check_device_session db d t).2).attendance = db.attendance := by
  unfold check_device_session
  cases h : db.sessions
  · simp [create_sessions_sheet]
  · rename_i rows
    by_cases hl : rows.length < 2 <;> simp [hl]

/-- `check_device_session` never reports a failed check. -/
lemma check_device_session_ok (db : SheetDB) (d t : String) :
    (check_device_session db d t).1.ok = true := by
  unfold check_device_session
  cases h : db.sessions
  · simp
  · rename_i rows
    by_cases hl : rows.length < 2 <;> simp [hl]

/-- A found device session leaves the database untouched. -/
lemma check_device_session_found_eq (db : SheetDB) (d t : String)
    (h : (check_device_session db d t).1.found = true) :
    (check_device_session db d t).2 = db := by
  revert h
  unfold check_device_session
  cases db.sessions with
  | none => intro h; simp at h
  | some rows =>
    by_cases hl : rows.length < 2
    · intro h; simp [hl] at h
    · intro _; simp [hl]

/-- A session check that does not come back `noSession` leaves the database
untouched (only the missing-sheet branch creates state). -/
lemma check_device_session_for_employee_eq (db : SheetDB) (d t : String)
    (h : (check_device_session_for_employee db d t).1 ≠ .noSession) :
    (check_device_session_for_employee db d t).2 = db := by
  revert h
  unfold check_device_session_for_employee
  cases db.sessions with
  | none => intro h; simp at h
  | some rows =>
    by_cases hl : rows.length < 2
    · intro h; simp [hl] at h
    · simp only [hl, if_false]
      cases hf : rows.tail.find? (fun r =>
          decide (3 ≤ r.length) && (r.getD 0 "" == d) && (r.getD 1 "" == t)) with
      | none => intro h; simp at h
      | some r =>
        intro _
        split <;> first
        | rfl
        | split <;> rfl

/-! ### C10: upstream Employees-read failure surfaces as "not found" -/

/-- C10: when the read of the Employees sheet fails, `get_employee_by_id`
returns `None` for every id, so `mark_attendance` and `mark_logout` report
the upstream failure as the not-found-class error, with the database
unchanged. -/
theorem read_failure_reported_as_not_found (db : SheetDB)
    (h : db.employeesOk = false) :
    (∀ eid : Int, get_employee_by_id db eid = none) ∧
    (∀ (today timeNow tsNow : String) (eid : Int) (lat lon : Option ℝ)
        (dev : Option String),
      mark_attendance db today timeNow tsNow eid lat lon dev =
        (.err "Employee not found or inactive", db)) ∧
    (∀ (today timeNow : String) (eid : Int) (lat lon : Option ℝ)
        (dev : Option String),
      mark_logout db today timeNow eid lat lon dev =
        (.err "Employee not found or inactive. Please contact HR to verify your employee status.", db)) := by
  refine ⟨get_employee_by_id_of_read_failure db h, ?_, ?_⟩ <;> intros <;>
    simp [mark_attendance, mark_logout, get_employee_by_id_of_read_failure db h]

/-- Witness for C10 at a concrete failed-read database. -/
theorem read_failure_reported_as_not_found_witness :
    get_employee_by_id
      { employeesOk := false, employees := [], attendance := [], sessions := none } 7 =
      none :=
  (read_failure_reported_as_not_found _ rfl).1 7

/-! ### C9: `add_employee` id assignment -/

lemma le_foldl_max (l : List Nat) (a : Nat) :
    a ≤ l.foldl Nat.max a ∧ ∀ i ∈ l, i ≤ l.foldl Nat.max a := by
  induction l generalizing a with
  | nil => simp
  | cons x xs ih =>
    simp only [List.foldl_cons]
    refine ⟨le_trans (Nat.le_max_left a x) (ih (Nat.max a x)).1, ?_⟩
    intro i hi
    rcases List.mem_cons.mp hi with rfl | h
    · exact le_trans (Nat.le_max_right a i) (ih (Nat.max a i)).1
    · exact (ih (Nat.max a x)).2 i h

lemma foldl_max_mem (l : List Nat) (a : Nat) :
    l.foldl Nat.max a ∈ l ∨ l.foldl Nat.max a = a := by
  induction l generalizing a with
  | nil => simp
  | cons x xs ih =>
    simp only [List.foldl_cons]
    rcases ih (Nat.max a x) with h | h
    · exact Or.inl (List.mem_cons_of_mem x h)
    · have hc : Nat.max a x = a ∨ Nat.max a x = x := by
        rcases Nat.le_total a x with hax | hax
        · exact Or.inr (Nat.max_eq_right hax)
        · exact Or.inl (Nat.max_eq_left hax)
      rcases hc with hm | hm
      · rw [hm] at h ⊢; exact Or.inr h
      · rw [hm] at h ⊢; rw [h]; exact Or.inl (List.mem_cons_self x xs)

lemma listMax_ge (l : List Nat) : ∀ i ∈ l, i ≤ listMax l := (le_foldl_max l 0).2

lemma listMax_mem (l : List Nat) (h : l ≠ []) : listMax l ∈ l := by
  rcases foldl_max_mem l 0 with hm | hm
  · exact hm
  · cases l with
    | nil => exact absurd rfl h
    | cons x xs =>
      have hx : x ≤ listMax (x :: xs) :=
        listMax_ge (x :: xs) x (List.mem_cons_self x xs)
      have hz : listMax (x :: xs) = 0 := hm
      rw [hz] at hx
      have hx0 : x = 0 := Nat.le_zero.mp hx
      rw [hz, ← hx0]
      exact List.mem_cons_self x xs

/-- C9: `add_employee` rejects a blank name without writing; a non-blank name
is appended with `active=true` and the fresh id `max(existing numeric ids)+1`
(1 when there are none). -/
theorem add_employee_spec (db : SheetDB) (name : String)
    (hok : db.employeesOk = true) :
    (pyTrim name = "" → add_employee db name = (.err "Employee name cannot be empty", db)) ∧
    (pyTrim name ≠ "" →
      ∃ n : Nat,
        add_employee db name =
          (.added n (pyTrim name),
            { db with employees := db.employees ++ [[toString n, pyTrim name, "TRUE"]] }) ∧
        ((employeeIds db = [] ∧ n = 1) ∨
          (n - 1 ∈ employeeIds db ∧ ∀ i ∈ employeeIds db, i < n))) := by
  constructor
  · intro h; simp [add_employee, h]
  · intro h
    refine ⟨if (employeeIds db).isEmpty then 1 else listMax (employeeIds db) + 1, ?_, ?_⟩
    · simp [add_employee, h, hok]
    · by_cases he : employeeIds db = []
      · exact Or.inl (by simp [he])
      · right
        have hne : (employeeIds db).isEmpty = false := by
          simpa [List.isEmpty_iff] using he
        simp only [hne, Bool.false_eq_true, if_false, Nat.add_sub_cancel]
        exact ⟨listMax_mem _ he, fun i hi => Nat.lt_succ_of_le (listMax_ge _ i hi)⟩

/-- Witness for C9: adding "Dave" to the concrete database. -/
theorem add_employee_spec_witness :
    (pyTrim "Dave" = "" → add_employee dbW "Dave" = (.err "Employee name cannot be empty", dbW)) ∧
    (pyTrim "Dave" ≠ "" →
      ∃ n : Nat,
        add_employee dbW "Dave" =
          (.added n (pyTrim "Dave"),
            { dbW with employees := dbW.employees ++ [[toString n, pyTrim "Dave", "TRUE"]] }) ∧
        ((employeeIds dbW = [] ∧ n = 1) ∨
          (n - 1 ∈ employeeIds dbW ∧ ∀ i ∈ employeeIds dbW, i < n))) :=
  add_employee_spec dbW "Dave" rfl

/-! ### C1: marking attendance twice is idempotent -/

/-- C1: when an attendance row already exists for (today, employee), a second
`mark_attendance` call (employee valid, geofence passing or absent, device
without a prior session) returns success with message "already marked" and
leaves the Attendance data unchanged — no duplicate row is appended. -/
theorem mark_attendance_idempotent (db : SheetDB) (today timeNow tsNow : String)
    (eid : Int) (lat lon : Option ℝ) (dev : Option String) (emp : Employee)
    (hemp : get_employee_by_id db eid = some emp)
    (hloc : locationGate lat lon = none)
    (hdev : ∀ d, dev = some d → (check_device_session db d today).1.found = false)
    (hmarked : (db.attendance.drop 1).any (rowMatches today eid) = true) :
    (mark_attendance db today timeNow tsNow eid lat lon dev).1 =
      .already "already marked" ∧
    (mark_attendance db today timeNow tsNow eid lat lon dev).2.attendance =
      db.attendance := by
  have hm : ∃ x ∈ db.attendance.tail, rowMatches today eid x = true := by
    simpa using hmarked
  unfold mark_attendance
  simp only [hemp, hloc]
  cases dev with
  | none => simp [hm]
  | some d =>
    have hf := hdev d rfl
    have hok := check_device_session_ok db d today
    have hatt := (check_device_session_frame db d today).2.2
    simp [hok, hf, hatt, hm]

/-- Witness for C1: Alice (id 1) is already marked on 2024-01-15 in `dbW`. -/
theorem mark_attendance_idempotent_witness :
    (mark_attendance dbW "2024-01-15" "09:30" "2024-01-15 09:30:00" 1 none none none).1 =
      .already "already marked" ∧
    (mark_attendance dbW "2024-01-15" "09:30" "2024-01-15 09:30:00" 1 none none none).2.attendance =
      dbW.attendance :=
  mark_attendance_idempotent dbW "2024-01-15" "09:30" "2024-01-15 09:30:00" 1
    none none none ⟨1, "Alice"⟩ rfl rfl (fun d h => nomatch h) (by decide)

/-! ### C4: the device-session guard on login -/

/-- C4: once a device session exists for (device, today), any
`mark_attendance` call passing that device id — by any valid employee,
including one different from the employee bound to the session — is rejected
with the device-already-used error and the database (in particular the
Attendance sheet) is unchanged. -/
theorem mark_attendance_device_guard (db : SheetDB) (today timeNow tsNow : String)
    (eid : Int) (lat lon : Option ℝ) (d : String) (emp : Employee)
    (hemp : get_employee_by_id db eid = some emp)
    (hloc : locationGate lat lon = none)
    (hsess : (check_device_session db d today).1.found = true) :
    mark_attendance db today timeNow tsNow eid lat lon (some d) =
      (.err "This device has already marked attendance today", db) := by
  have hok := check_device_session_ok db d today
  have heq := check_device_session_found_eq db d today hsess
  unfold mark_attendance
  simp [hemp, hloc, hok, hsess, heq]

/-- Witness for C4: device `dev1` is bound to employee 1 on 2024-01-15, and
Carol (id 3, a different employee) is rejected. -/
theorem mark_attendance_device_guard_witness :
    mark_attendance dbW "2024-01-15" "09:30" "2024-01-15 09:30:00" 3 none none
        (some "dev1") =
      (.err "This device has already marked attendance today", dbW) :=
  mark_attendance_device_guard dbW "2024-01-15" "09:30" "2024-01-15 09:30:00" 3
    none none "dev1" ⟨3, "Carol"⟩ rfl rfl (by decide)

/-! ### Helper lemmas for `mark_logout` -/

lemma check_device_session_for_employee_state (db : SheetDB) (d t : String) :
    (check_device_session_for_employee db d t).2 = db ∨
    (check_device_session_for_employee db d t).2 = create_sessions_sheet db := by
  unfold check_device_session_for_employee
  cases db.sessions with
  | none => exact Or.inr rfl
  | some rows =>
    by_cases hl : rows.length < 2
    · simp [hl]
    · simp only [hl, if_false]
      split
      · split <;> simp
      · simp

/-- The employee-session check never changes the Attendance sheet. -/
lemma cdsfe_attendance (db : SheetDB) (d t : String) :
    (check_device_session_for_employee db d t).2.attendance = db.attendance := by
  rcases check_device_session_for_employee_state db d t with h | h <;> rw [h]
  rfl

/-- The cross-identity logout message differs from the other logout guard
messages whatever employee name it embeds: their fifth characters differ
('a' against 'h'). -/
lemma deviceMsg_ne (nm other : String) (h : other.data[4]? = some 'h') :
    "You are logged in as " ++ nm ++ " today and can only logout for " ++ nm ++
      " today!" ≠ other := by
  intro he
  have h4 : ("You are logged in as " ++ nm ++ " today and can only logout for " ++
      nm ++ " today!").data[4]? = some 'a' := by
    rw [String.append_assoc, String.append_assoc, String.append_assoc,
      String.data_append, List.getElem?_append]
    norm_num
  rw [he, h] at h4
  exact absurd h4 (by decide)

lemma padTo6_length (r : Row) : 6 ≤ (padTo6 r).length := by
  unfold padTo6; simp; omega

lemma getD_set_self {α : Type} (l : List α) (i : Nat) (a d : α) (h : i < l.length) :
    (l.set i a).getD i d = a := by
  rw [List.getD_eq_getElem?_getD, List.getElem?_set_self h]; rfl

lemma getD_set_ne {α : Type} (l : List α) (i k : Nat) (a d : α) (h : i ≠ k) :
    (l.set i a).getD k d = l.getD k d := by
  rw [List.getD_eq_getElem?_getD, List.getElem?_set_ne h, ← List.getD_eq_getElem?_getD]

lemma padTo6_getD (r : Row) (c : Nat) : (padTo6 r).getD c "" = r.getD c "" := by
  unfold padTo6
  rcases Nat.lt_or_ge c r.length with h | h
  · exact List.getD_append _ _ _ _ h
  · rw [List.getD_eq_default _ _ h, List.getD_eq_getElem?_getD,
      List.getElem?_append_right h, List.getElem?_replicate]
    split <;> rfl

/-! ### C3: the `mark_logout` guards -/

/-- C3: for an active employee (geofence passing or absent), `mark_logout`
fails with the "haven't logged in" error exactly when no attendance row for
(today, employee) exists, fails with the "already logged out" error exactly
when that row exists with its logout column (F) already set, and in both
failure cases the database is unchanged. -/
theorem mark_logout_guards (db : SheetDB) (today timeNow : String) (eid : Int)
    (lat lon : Option ℝ) (dev : Option String) (emp : Employee)
    (hemp : get_employee_by_id db eid = some emp)
    (hloc : locationGate lat lon = none) :
    ((mark_logout db today timeNow eid lat lon dev).1 =
        .err "You haven't logged in today. Please mark your attendance first before logging out." ↔
      (db.attendance.drop 1).findIdx? (rowMatches today eid) = none) ∧
    ((mark_logout db today timeNow eid lat lon dev).1 =
        .err "You have already logged out today. No action needed." ↔
      (∃ j, (db.attendance.drop 1).findIdx? (rowMatches today eid) = some j ∧
        6 ≤ (db.attendance.getD (j + 1) []).length ∧
        (db.attendance.getD (j + 1) []).getD 5 "" ≠ "")) ∧
    (((mark_logout db today timeNow eid lat lon dev).1 =
        .err "You haven't logged in today. Please mark your attendance first before logging out." ∨
      (mark_logout db today timeNow eid lat lon dev).1 =
        .err "You have already logged out today. No action needed.") →
      (mark_logout db today timeNow eid lat lon dev).2 = db) := by
  unfold mark_logout
  simp only [hemp, hloc]
  cases hj : (db.attendance.drop 1).findIdx? (rowMatches today eid) with
  | none => simp
  | some j =>
    by_cases hout : 6 ≤ (db.attendance.getD (j + 1) []).length ∧
        (db.attendance.getD (j + 1) []).getD 5 "" ≠ ""
    all_goals simp only [List.getD_eq_getElem?_getD] at hout
    · simp [hout.1, hout.2]
    · cases dev with
      | none => simp [hout, writeLogout]
      | some d =>
        cases hc : (check_device_session_for_employee db d today).1 with
        | checkFailed m => simp [hout, hc, writeLogout]
        | noSession => simp [hout, hc, writeLogout]
        | bound e =>
          by_cases he : e = eid
          · simp [he, hout, hc, writeLogout]
          · have h1 := fun nm => deviceMsg_ne nm
              "You haven't logged in today. Please mark your attendance first before logging out."
              (by norm_num)
            have h2 := fun nm => deviceMsg_ne nm
              "You have already logged out today. No action needed." (by norm_num)
            simp [he, hout, hc, h1, h2]

/-- Witness for C3 at the concrete database: Bobby-free case where Alice has
a row without logout, so neither guard fires; applied at employee 1. -/
theorem mark_logout_guards_witness :
    ((mark_logout dbW "2024-01-15" "18:00" 1 none none none).1 =
        .err "You haven't logged in today. Please mark your attendance first before logging out." ↔
      (dbW.attendance.drop 1).findIdx? (rowMatches "2024-01-15" 1) = none) ∧
    ((mark_logout dbW "2024-01-15" "18:00" 1 none none none).1 =
        .err "You have already logged out today. No action needed." ↔
      (∃ j, (dbW.attendance.drop 1).findIdx? (rowMatches "2024-01-15" 1) = some j ∧
        6 ≤ (dbW.attendance.getD (j + 1) []).length ∧
        (dbW.attendance.getD (j + 1) []).getD 5 "" ≠ "")) ∧
    (((mark_logout dbW "2024-01-15" "18:00" 1 none none none).1 =
        .err "You haven't logged in today. Please mark your attendance first before logging out." ∨
      (mark_logout dbW "2024-01-15" "18:00" 1 none none none).1 =
        .err "You have already logged out today. No action needed.") →
      (mark_logout dbW "2024-01-15" "18:00" 1 none none none).2 = dbW) :=
  mark_logout_guards dbW "2024-01-15" "18:00" 1 none none none ⟨1, "Alice"⟩ rfl rfl

/-! ### C5: the device-session guard on logout -/

/-- C5: with employee F active and owning today's not-yet-closed attendance
row: when the session for (device, today) is bound to a different employee E,
the logout is rejected with the message naming E (resolved via the employee
lookup) and nothing is written; when the session check itself returns an
error, the logout proceeds and the logout time is written. -/
theorem mark_logout_cross_device (db : SheetDB) (today timeNow : String)
    (fid : Int) (lat lon : Option ℝ) (d : String) (emp : Employee) (j : Nat)
    (hemp : get_employee_by_id db fid = some emp)
    (hloc : locationGate lat lon = none)
    (hj : (db.attendance.drop 1).findIdx? (rowMatches today fid) = some j)
    (hnotout : ¬(6 ≤ (db.attendance.getD (j + 1) []).length ∧
      (db.attendance.getD (j + 1) []).getD 5 "" ≠ "")) :
    (∀ e : Int, (check_device_session_for_employee db d today).1 = .bound e →
      e ≠ fid →
      mark_logout db today timeNow fid lat lon (some d) =
        (.err ("You are logged in as " ++ loggedName db e ++
          " today and can only logout for " ++ loggedName db e ++ " today!"), db)) ∧
    (∀ m, (check_device_session_for_employee db d today).1 = .checkFailed m →
      mark_logout db today timeNow fid lat lon (some d) =
        (.loggedOut timeNow today,
          { db with attendance := db.attendance.set (j + 1) ((padTo6 (db.attendance.getD (j + 1) [])).set 5 timeNow) })) := by
  simp only [List.getD_eq_getElem?_getD] at hnotout
  constructor
  · intro e hc hne
    have heq : (check_device_session_for_employee db d today).2 = db :=
      check_device_session_for_employee_eq db d today (by rw [hc]; simp)
    unfold mark_logout
    simp only [hemp, hloc, hj]
    simp [hnotout, hc, hne, heq]
  · intro m hc
    have heq : (check_device_session_for_employee db d today).2 = db :=
      check_device_session_for_employee_eq db d today (by rw [hc]; simp)
    unfold mark_logout
    simp only [hemp, hloc, hj]
    simp [hnotout, hc, heq, writeLogout]

/-- Witness for C5: device `dev2` is bound to Carol (id 3); Alice (id 1,
logged in, not out) cannot log out on it, and the message names Carol. -/
theorem mark_logout_cross_device_witness :
    mark_logout dbW "2024-01-15" "18:00" 1 none none (some "dev2") =
      (.err ("You are logged in as " ++ loggedName dbW 3 ++
        " today and can only logout for " ++ loggedName dbW 3 ++ " today!"), dbW) :=
  (mark_logout_cross_device dbW "2024-01-15" "18:00" 1 none none "dev2"
    ⟨1, "Alice"⟩ 0 rfl rfl (by decide) (by decide)).1 3 (by decide) (by decide)

/-! ### C8: a successful logout only writes column F of the matched row -/

/-- C8: on a successful `mark_logout`, the new Attendance sheet is the old
one with only the matched row replaced; that row keeps columns A..E exactly
as read (padded with empty cells when short) and gets the logout time in
column F; every other row is untouched. -/
theorem mark_logout_frame (db : SheetDB) (today timeNow : String) (eid : Int)
    (lat lon : Option ℝ) (dev : Option String) (j : Nat)
    (hj : (db.attendance.drop 1).findIdx? (rowMatches today eid) = some j)
    (hsucc : (mark_logout db today timeNow eid lat lon dev).1 =
      .loggedOut timeNow today) :
    (mark_logout db today timeNow eid lat lon dev).2.attendance =
      db.attendance.set (j + 1)
        ((padTo6 (db.attendance.getD (j + 1) [])).set 5 timeNow) ∧
    (∀ k, k ≠ j + 1 →
      (mark_logout db today timeNow eid lat lon dev).2.attendance.getD k [] =
        db.attendance.getD k []) ∧
    (∀ c, c < 5 →
      ((mark_logout db today timeNow eid lat lon dev).2.attendance.getD (j + 1) []).getD c "" =
        (db.attendance.getD (j + 1) []).getD c "") ∧
    ((mark_logout db today timeNow eid lat lon dev).2.attendance.getD (j + 1) []).getD 5 "" =
      timeNow := by
  have hlen : j + 1 < db.attendance.length := by
    have h1 : j < (db.attendance.drop 1).length :=
      (List.findIdx?_eq_some_iff_findIdx_eq.mp hj).1
    simp only [List.length_drop] at h1
    omega
  suffices hmain : (mark_logout db today timeNow eid lat lon dev).2.attendance =
      db.attendance.set (j + 1)
        ((padTo6 (db.attendance.getD (j + 1) [])).set 5 timeNow) by
    refine ⟨hmain, ?_, ?_, ?_⟩
    · intro k hk
      rw [hmain, getD_set_ne _ _ _ _ _ (fun hx => hk hx.symm)]
    · intro c hc
      rw [hmain, getD_set_self _ _ _ _ hlen,
        getD_set_ne _ _ _ _ _ (by omega), padTo6_getD]
    · rw [hmain, getD_set_self _ _ _ _ hlen,
        getD_set_self _ _ _ _ (by have := padTo6_length (db.attendance.getD (j + 1) []); omega)]
  revert hsucc
  unfold mark_logout
  cases hge : get_employee_by_id db eid with
  | none => intro hs; simp at hs
  | some emp =>
    cases hlo : locationGate lat lon with
    | some m => intro hs; simp at hs
    | none =>
      simp only [hj]
      by_cases hout : 6 ≤ (db.attendance.getD (j + 1) []).length ∧
          (db.attendance.getD (j + 1) []).getD 5 "" ≠ ""
      all_goals simp only [List.getD_eq_getElem?_getD] at hout
      · intro hs; simp [hout.1, hout.2] at hs
      · cases dev with
        | none => intro _; simp [hout, writeLogout]
        | some d =>
          have hatt := cdsfe_attendance db d today
          cases hc : (check_device_session_for_employee db d today).1 with
          | checkFailed m => intro _; simp [hout, hc, writeLogout, hatt]
          | noSession => intro _; simp [hout, hc, writeLogout, hatt]
          | bound e =>
            by_cases he : e = eid
            · intro _; simp [hout, he, hc, writeLogout, hatt]
            · intro hs; simp [hout, he, hc] at hs

/-- Witness for C8: Alice (id 1) logs out at 18:00; only column F of her row
changes. -/
theorem mark_logout_frame_witness :
    (mark_logout dbW "2024-01-15" "18:00" 1 none none none).2.attendance =
      dbW.attendance.set 1 ((padTo6 (dbW.attendance.getD 1 [])).set 5 "18:00") ∧
    (∀ k, k ≠ 1 →
      (mark_logout dbW "2024-01-15" "18:00" 1 none none none).2.attendance.getD k [] =
        dbW.attendance.getD k []) ∧
    (∀ c, c < 5 →
      ((mark_logout dbW "2024-01-15" "18:00" 1 none none none).2.attendance.getD 1 []).getD c "" =
        (dbW.attendance.getD 1 []).getD c "") ∧
    ((mark_logout dbW "2024-01-15" "18:00" 1 none none none).2.attendance.getD 1 []).getD 5 "" =
      "18:00" :=
  mark_logout_frame dbW "2024-01-15" "18:00" 1 none none none 0 (by decide) (by decide)

/-! ### C7: only active rows appear in the directory listing -/

lemma employeesFromRows_mem (data : List Row) (idI nameI actI : Nat)
    (emps : List Employee) (h : employeesFromRows data idI nameI actI = .ok emps) :
    ∀ e ∈ emps, ∃ row ∈ data,
      actI < row.length ∧ pyUpper (row.getD actI "") = "TRUE" ∧
      idI < row.length ∧ nameI < row.length ∧
      pyToInt (row.getD idI "") = some e.id ∧ row.getD nameI "" = e.name := by
  induction data generalizing emps with
  | nil =>
    simp only [employeesFromRows, Except.ok.injEq] at h
    subst h; simp
  | cons row rest ih =>
    intro e he
    simp only [employeesFromRows] at h
    by_cases hact : actI < row.length ∧ pyUpper (row.getD actI "") = "TRUE"
    · rw [if_pos hact] at h
      by_cases hlen : idI < row.length ∧ nameI < row.length
      · rw [if_pos hlen] at h
        cases hint : pyToInt (row.getD idI "") with
        | none => rw [hint] at h; simp at h
        | some n =>
          rw [hint] at h
          cases hrec : employeesFromRows rest idI nameI actI with
          | error err => rw [hrec] at h; simp at h
          | ok es =>
            rw [hrec] at h
            simp only [Except.ok.injEq] at h
            subst h
            rcases List.mem_cons.mp he with rfl | hes
            · exact ⟨row, List.mem_cons_self row rest, hact.1, hact.2, hlen.1,
                hlen.2, hint, rfl⟩
            · obtain ⟨r, hr, hrest⟩ := ih es hrec e hes
              exact ⟨r, List.mem_cons_of_mem row hr, hrest⟩
      · rw [if_neg hlen] at h
        obtain ⟨r, hr, hrest⟩ := ih emps h e he
        exact ⟨r, List.mem_cons_of_mem row hr, hrest⟩
    · rw [if_neg hact] at h
      obtain ⟨r, hr, hrest⟩ := ih emps h e he
      exact ⟨r, List.mem_cons_of_mem row hr, hrest⟩

/-- C7: every entry of a successful directory listing corresponds to a sheet
row whose active flag upper-cases to `"TRUE"`; hence an employee id all of
whose rows are inactive never appears in the listing. -/
theorem get_employees_active_only (db : SheetDB) (emps : List Employee)
    (header : Row) (data : List Row) (idI nameI actI : Nat)
    (hsheet : db.employees = header :: data)
    (hid : headerIndex header "id" = some idI)
    (hname : headerIndex header "name" = some nameI)
    (hact : headerIndex header "active" = some actI)
    (hok : get_employees db = .ok emps) :
    (∀ e ∈ emps, ∃ row ∈ data,
      actI < row.length ∧ pyUpper (row.getD actI "") = "TRUE" ∧
      idI < row.length ∧ nameI < row.length ∧
      pyToInt (row.getD idI "") = some e.id ∧ row.getD nameI "" = e.name) ∧
    (∀ i : Int,
      (∀ row ∈ data, pyToInt (row.getD idI "") = some i →
        ¬(actI < row.length ∧ pyUpper (row.getD actI "") = "TRUE")) →
      ∀ e ∈ emps, e.id ≠ i) := by
  have hmem : ∀ e ∈ emps, ∃ row ∈ data,
      actI < row.length ∧ pyUpper (row.getD actI "") = "TRUE" ∧
      idI < row.length ∧ nameI < row.length ∧
      pyToInt (row.getD idI "") = some e.id ∧ row.getD nameI "" = e.name := by
    unfold get_employees at hok
    cases hflag : db.employeesOk with
    | false => rw [hflag] at hok; simp at hok
    | true =>
      rw [hflag] at hok
      by_cases hlen2 : db.employees.length < 2
      · simp only [hlen2, if_true, Bool.not_true, Bool.false_eq_true, if_false,
          Except.ok.injEq] at hok
        subst hok; simp
      · simp only [hlen2, Bool.not_true, Bool.false_eq_true, if_false] at hok
        rw [hsheet] at hok
        simp only [hid, hname, hact] at hok
        exact employeesFromRows_mem data idI nameI actI emps hok
  refine ⟨hmem, ?_⟩
  intro i hall e he hei
  obtain ⟨row, hrow, h1, h2, _, _, h5, _⟩ := hmem e he
  exact hall row hrow (hei ▸ h5) ⟨h1, h2⟩

/-- Witness for C7 at the concrete database (Bob, the inactive row, is
absent: the active employees are Alice and Carol). -/
theorem get_employees_active_only_witness :
    (∀ e ∈ [Employee.mk 1 "Alice", Employee.mk 3 "Carol"],
      ∃ row ∈ [["1", "Alice", "TRUE"], ["2", "Bob", "FALSE"], ["3", "Carol", "TRUE"]],
      2 < row.length ∧ pyUpper (row.getD 2 "") = "TRUE" ∧
      0 < row.length ∧ 1 < row.length ∧
      pyToInt (row.getD 0 "") = some e.id ∧ row.getD 1 "" = e.name) ∧
    (∀ i : Int,
      (∀ row ∈ [["1", "Alice", "TRUE"], ["2", "Bob", "FALSE"], ["3", "Carol", "TRUE"]],
        pyToInt (row.getD 0 "") = some i →
        ¬(2 < row.length ∧ pyUpper (row.getD 2 "") = "TRUE")) →
      ∀ e ∈ [Employee.mk 1 "Alice", Employee.mk 3 "Carol"], e.id ≠ i) :=
  get_employees_active_only dbW [Employee.mk 1 "Alice", Employee.mk 3 "Carol"]
    ["id", "name", "active"]
    [["1", "Alice", "TRUE"], ["2", "Bob", "FALSE"], ["3", "Carol", "TRUE"]]
    0 1 2 rfl rfl rfl rfl rfl

/-! ### C2: the geofence check -/

lemma atan2_zero_one : atan2 0 1 = 0 := by
  unfold atan2
  rw [if_pos (by norm_num : (0 : ℝ) < 1)]
  norm_num [Real.arctan_zero]

/-- The haversine distance from a point to itself is zero. -/
lemma haversine_self (lat lon : ℝ) : haversine_distance lat lon lat lon = 0 := by
  unfold haversine_distance
  simp [atan2_zero_one]

open Classical in
/-- `validate_location` over the singleton office list, written as the
two-threshold decision it implements. -/
lemma validate_location_eq (lat lon : ℝ) :
    validate_location lat lon =
      (if haversine_distance lat lon 28.678139 77.106889 ≤ 50 then
        LocResult.pass (round (haversine_distance lat lon 28.678139 77.106889))
      else if haversine_distance lat lon 28.678139 77.106889 ≤ 200 then
        LocResult.pass (round (haversine_distance lat lon 28.678139 77.106889))
      else
        LocResult.fail (outsideMsg (round (haversine_distance lat lon 28.678139 77.106889)))) := by
  unfold validate_location firstWithinRadius minDistance allowed_locations
  by_cases h : haversine_distance lat lon 28.678139 77.106889 ≤ 50
  · simp [h]
  · simp [h, firstWithinRadius]

/-- C2: `validate_location` passes, reporting the rounded haversine distance
(Earth radius 6,371,000 m) to the configured office, exactly when that
distance is within the office radius (50 m) or the 200 m fallback; beyond
both it fails with the message naming the rounded distance; the distance of
a point to itself is 0, and the office point itself passes with distance 0. -/
theorem validate_location_spec (lat lon : ℝ) :
    (validate_location lat lon =
        .pass (round (haversine_distance lat lon 28.678139 77.106889)) ↔
      (haversine_distance lat lon 28.678139 77.106889 ≤ 50 ∨
        haversine_distance lat lon 28.678139 77.106889 ≤ 200)) ∧
    (¬ haversine_distance lat lon 28.678139 77.106889 ≤ 200 →
      validate_location lat lon =
        .fail (outsideMsg (round (haversine_distance lat lon 28.678139 77.106889)))) ∧
    haversine_distance lat lon lat lon = 0 ∧
    validate_location 28.678139 77.106889 = .pass 0 := by
  refine ⟨?_, ?_, haversine_self lat lon, ?_⟩
  · rw [validate_location_eq]
    by_cases h50 : haversine_distance lat lon 28.678139 77.106889 ≤ 50
    · simp [h50]
    · by_cases h200 : haversine_distance lat lon 28.678139 77.106889 ≤ 200
      · simp [h50, h200]
      · simp [h50, h200]
  · intro h200
    have h50 : ¬ haversine_distance lat lon 28.678139 77.106889 ≤ 50 := fun h =>
      h200 (le_trans h (by norm_num))
    rw [validate_location_eq]
    simp [h50, h200]
  · have h0 := haversine_self (28.678139 : ℝ) 77.106889
    rw [validate_location_eq, h0]
    have hle : (0 : ℝ) ≤ 50 := by norm_num
    simp [hle]

/-- Witness for C2: the configured office location itself passes with
reported distance 0. -/
theorem validate_location_spec_witness :
    validate_location 28.678139 77.106889 = .pass 0 :=
  (validate_location_spec 0 0).2.2.2

/-! ### C6: the month matrix -/

/-- The dict build of `get_attendance_matrix` against its reference reading:
looking up a key in the insertion list is looking at the last qualifying
sheet row that computes this key. -/
lemma monthEntries_lookup (month key : String) (rows : List Row)
    (entries : List (String × String))
    (h : monthEntries month rows = .ok entries) :
    lookupLast entries key =
      ((rows.filter (rowHasKey month key)).getLast?).map timeDisplay := by
  induction rows generalizing entries with
  | nil =>
    simp only [monthEntries, Except.ok.injEq] at h
    subst h
    simp [lookupLast]
  | cons row rest ih =>
    simp only [monthEntries] at h
    cases hq : monthRowQualifies month row with
    | false =>
      simp only [hq, Bool.false_eq_true, if_false] at h
      rw [ih entries h, List.filter_cons]
      have hrk : rowHasKey month key row = false := by
        simp [rowHasKey, hq]
      rw [hrk]
      simp
    | true =>
      simp only [hq, if_true] at h
      cases hd : dayOfDate (row.getD 0 "") with
      | none => rw [hd] at h; simp at h
      | some day =>
        rw [hd] at h
        cases hrec : monthEntries month rest with
        | error e => rw [hrec] at h; simp at h
        | ok es =>
          rw [hrec] at h
          simp only [Except.ok.injEq] at h
          subst h
          have hrk : rowHasKey month key row =
              (row.getD 1 "" ++ "|" ++ toString day == key) := by
            have hd2 := hd
            simp only [List.getD_eq_getElem?_getD] at hd2
            simp [rowHasKey, hq, hd2]
          rw [List.filter_cons, hrk]
          simp only [lookupLast]
          rw [ih es hrec]
          cases hfl : (rest.filter (rowHasKey month key)).getLast? with
          | some w =>
            simp only [Option.map_some']
            have hne : rest.filter (rowHasKey month key) ≠ [] := by
              intro hnil; rw [hnil] at hfl; simp at hfl
            by_cases hk : (row.getD 1 "" ++ "|" ++ toString day == key) = true
            · rw [if_pos hk]
              cases hft : rest.filter (rowHasKey month key) with
              | nil => exact absurd hft hne
              | cons b m =>
                rw [hft] at hfl
                rw [List.getLast?_cons_cons, hfl]
                rfl
            · rw [if_neg hk, hfl]
              rfl
          | none =>
            have hnil : rest.filter (rowHasKey month key) = [] :=
              List.getLast?_eq_none_iff.mp hfl
            simp only [Option.map_none']
            by_cases hk : (row.getD 1 "" ++ "|" ++ toString day == key) = true
            all_goals have hk2 := hk
            all_goals simp only [beq_iff_eq, List.getD_eq_getElem?_getD] at hk2
            · rw [if_pos hk, hnil]
              simp [hk2]
            · rw [if_neg hk, hnil]
              simp [hk2]

lemma upsertEmp_not_mem (acc : List Employee) (e : Employee)
    (h : ∀ x ∈ acc, x.id ≠ e.id) : upsertEmp acc e = acc ++ [e] := by
  have hc : ¬ (acc.any (fun x => x.id == e.id) = true) := by
    simp only [List.any_eq_true]
    rintro ⟨x, hx, hbe⟩
    exact h x hx (by simpa using hbe)
  unfold upsertEmp
  rw [if_neg hc]

lemma empMap_go (l acc : List Employee)
    (h : ((acc ++ l).map Employee.id).Nodup) :
    l.foldl upsertEmp acc = acc ++ l := by
  induction l generalizing acc with
  | nil => simp
  | cons e es ih =>
    have hid : ∀ x ∈ acc, x.id ≠ e.id := by
      intro x hx heq
      rw [List.map_append] at h
      have hdisj := (List.nodup_append.mp h).2.2
      exact hdisj (List.mem_map_of_mem _ hx)
        (by simp only [List.map_cons]; rw [heq]; exact List.mem_cons_self _ _)
    rw [List.foldl_cons, upsertEmp_not_mem acc e hid]
    have h2 : (((acc ++ [e]) ++ es).map Employee.id).Nodup := by
      simpa [List.append_assoc] using h
    rw [ih (acc ++ [e]) h2, List.append_assoc]
    rfl

/-- The `emp_map` dict keeps active employees unchanged when their ids are
distinct. -/
lemma empMap_eq (l : List Employee) (h : (l.map Employee.id).Nodup) :
    empMap l = l := by
  simpa [empMap] using empMap_go l [] (by simpa using h)

/-- The two display cases of the matrix loop: arrival alone without a
(non-blank) logout, `"arrival - logout"` with one. -/
lemma timeDisplay_eq (row : Row) :
    (pyTrim (logoutCell row) = "" → timeDisplay row = row.getD 3 "") ∧
    (pyTrim (logoutCell row) ≠ "" →
      timeDisplay row = row.getD 3 "" ++ " - " ++ logoutCell row) := by
  constructor
  · intro h
    unfold timeDisplay
    rw [if_neg]
    rintro ⟨_h1, h2⟩
    exact h2 h
  · intro h
    unfold timeDisplay
    rw [if_pos]
    exact ⟨fun he => h (by rw [he]; decide), h⟩

/-- C6: a successful month matrix has exactly one row per active employee
(ids and names in listing order), every row carries the day keys
`"1"`..`"days-in-month"` in order, and each cell shows the last matching
attendance record for that (employee, day): empty string without one, the
arrival alone without a logout, `"arrival - logout"` with one. -/
theorem month_matrix_spec (db : SheetDB) (month : String) (n : Nat)
    (rows : List MatrixRow) (emps : List Employee)
    (hemps : get_employees db = .ok emps)
    (hnodup : (emps.map Employee.id).Nodup)
    (hok : get_attendance_matrix db month = .ok (n, rows)) :
    rows.map (fun r => (r.id, r.name)) = emps.map (fun e => (e.id, e.name)) ∧
    (∀ r ∈ rows, r.cells.map Prod.fst = (List.range' 1 n).map toString) ∧
    (∀ r ∈ rows, ∀ p ∈ r.cells,
      p.2 = ((lastRecord (db.attendance.drop 1) month
        (toString r.id ++ "|" ++ p.1)).map timeDisplay).getD "") ∧
    (∀ rec : Row,
      (pyTrim (logoutCell rec) = "" → timeDisplay rec = rec.getD 3 "") ∧
      (pyTrim (logoutCell rec) ≠ "" →
        timeDisplay rec = rec.getD 3 "" ++ " - " ++ logoutCell rec)) := by
  unfold get_attendance_matrix at hok
  simp only [hemps] at hok
  cases hent : monthEntries month (db.attendance.drop 1) with
  | error e => simp only [hent] at hok; simp at hok
  | ok entries =>
    simp only [hent] at hok
    cases hpm : parseMonth month with
    | none => simp only [hpm] at hok; simp at hok
    | some ym =>
      simp only [hpm] at hok
      cases hdm : daysInMonth ym.1 ym.2 with
      | none => simp only [hdm] at hok; simp at hok
      | some days =>
        simp only [hdm] at hok
        simp only [Except.ok.injEq, Prod.mk.injEq] at hok
        obtain ⟨hdays, hrows⟩ := hok
        subst hdays
        rw [empMap_eq emps hnodup] at hrows
        subst hrows
        refine ⟨?_, ?_, ?_, fun rec => timeDisplay_eq rec⟩
        · simp
        · intro r hr
          simp only [List.mem_map] at hr
          obtain ⟨e, _he, rfl⟩ := hr
          simp [List.map_map, Function.comp]
        · intro r hr p hp
          simp only [List.mem_map] at hr
          obtain ⟨e, _he, rfl⟩ := hr
          simp only [List.mem_map] at hp
          obtain ⟨d, _hd, rfl⟩ := hp
          simp only [lastRecord]
          rw [monthEntries_lookup month _ _ entries hent]

/-- Witness for C6: the January 2024 matrix of the concrete database. -/
theorem month_matrix_spec_witness :
    matrixW.2.map (fun r => (r.id, r.name)) =
      [Employee.mk 1 "Alice", Employee.mk 3 "Carol"].map (fun e => (e.id, e.name)) ∧
    (∀ r ∈ matrixW.2, r.cells.map Prod.fst = (List.range' 1 matrixW.1).map toString) ∧
    (∀ r ∈ matrixW.2, ∀ p ∈ r.cells,
      p.2 = ((lastRecord (dbW.attendance.drop 1) "2024-01"
        (toString r.id ++ "|" ++ p.1)).map timeDisplay).getD "") ∧
    (∀ rec : Row,
      (pyTrim (logoutCell rec) = "" → timeDisplay rec = rec.getD 3 "") ∧
      (pyTrim (logoutCell rec) ≠ "" →
        timeDisplay rec = rec.getD 3 "" ++ " - " ++ logoutCell rec)) :=
  month_matrix_spec dbW "2024-01" matrixW.1 matrixW.2
    [Employee.mk 1 "Alice", Employee.mk 3 "Carol"] rfl (by decide) rfl

end NeoAttendance
